import Mathlib

/-!
Shallow embedding of `cellml/api/pmr2/utility.py` (class `CellMLAPIUtility`
and the module-level `makeGenerator`).  External collaborators (the network
transport `urllib2.urlopen`, the URL joiner `urlparse.urljoin`, and the
CellML API parser `createFromText` / `instantiateFromText`) are passed in
as oracle functions; everything written in the Python source itself is
modelled definitionally.
-/

/-- Python exception values that cross the boundaries the source code cares
about: `urllib2.URLError`, `ValueError`, `TypeError`, `NameError`. -/
inductive PyErr where
  | urlError (msg : String)
  | valueError (msg : String)
  | typeError (msg : String)
  | nameError (msg : String)
deriving DecidableEq

/-- The object returned by calling the produce-iterator member of a CellML
API collection: its class name, its members (name, is-callable), and the
elements its advance member yields (after them it yields the `None`
sentinel forever, as the CellML API iterators do). -/
structure IterObj (α : Type) where
  className : String
  members : List (String × Bool)
  items : List α
deriving DecidableEq

/-- A target object fed to `makeGenerator`: class name, members
(name, is-callable), and the iterator object its produce-iterator member
returns when called. -/
structure TargetObj (α : Type) where
  className : String
  members : List (String × Bool)
  produced : IterObj α
deriving DecidableEq

/-- Python attribute lookup restricted to what `getcallable` inspects:
`none` when `hasattr` fails, otherwise whether the attribute is callable. -/
def lookupMember (members : List (String × Bool)) (name : String) : Option Bool :=
  (members.find? (fun m => m.1 == name)).map (fun m => m.2)

/-- `makeGenerator.getcallable`: raises `TypeError` when the attribute is
missing or not callable (the Python messages quote the class name and the
member name; the quote characters are elided here). -/
def getcallableCheck (className : String) (members : List (String × Bool))
    (name : String) : Except PyErr Unit :=
  match lookupMember members name with
  | none => .error (.typeError (className ++ " object is not iterable with " ++ name))
  | some false => .error (.typeError (className ++ "." ++ name ++ " is not callable"))
  | some true => .ok ()

/-- Lines 219-224 of the source: when `key is not None` the produce-iterator
and advance names are overwritten with `iterate%ss % key` and
`next%s % key`; otherwise the explicit `iterator` / `next` arguments are
kept. -/
def resolveNames (key : Option String) (iterator : String) (next : String) :
    String × String :=
  match key with
  | some k => ("iterate" ++ k ++ "s", "next" ++ k)
  | none => (iterator, next)

/-- State of the Python generator produced by `makeGenerator._generator`:
the elements not yet yielded, and whether the generator frame has finished
(after `StopIteration` a Python generator is closed and never runs its body
again). -/
structure Gen (α : Type) where
  remaining : List α
  closed : Bool
deriving DecidableEq

/-- One `next()` call on the generator: a closed generator yields nothing;
otherwise the advance function is called, and the `None` sentinel (here:
the element list being exhausted) terminates the generator for good. -/
def genNext (g : Gen α) : Option α × Gen α :=
  if g.closed then (none, g)
  else
    match g.remaining with
    | [] => (none, { remaining := [], closed := true })
    | x :: xs => (some x, { remaining := xs, closed := false })

/-- Drain up to `fuel` elements from the generator, stopping at the first
sentinel; returns the yielded elements and the generator state left
behind. -/
def drain (g : Gen α) (fuel : Nat) : List α × Gen α :=
  match fuel with
  | 0 => ([], g)
  | Nat.succ n =>
    match genNext g with
    | (none, g1) => ([], g1)
    | (some x, g1) =>
      let r := drain g1 n
      (x :: r.1, r.2)

/-- `list(generator)` on a generator in state `g`: everything it has left. -/
def drainAll (g : Gen α) : List α :=
  if g.closed then [] else g.remaining

/-- `makeGenerator(obj, key, iterator, next)`: resolve the two method names,
eagerly check and call the produce-iterator member, eagerly check the
advance member on the produced object, and hand back a fresh generator. -/
def makeGenerator (obj : TargetObj α) (key : Option String)
    (iterator : String) (next : String) : Except PyErr (Gen α) :=
  let names := resolveNames key iterator next
  match getcallableCheck obj.className obj.members names.1 with
  | .error e => .error e
  | .ok _ =>
    match getcallableCheck obj.produced.className obj.produced.members names.2 with
    | .error e => .error e
    | .ok _ => .ok { remaining := obj.produced.items, closed := false }

/-- The truth value Python computes for `self._validateProtocol` in the test
`if not self._validateProtocol:` inside `loadURL`: the bound method object
itself (it is never called), and a bound method is always truthy. -/
def validateProtocolAsBool : Bool := true

/-- `_validateProtocol` as written: `urlparse(location).scheme in
self.approved_protocol`.  The name `urlparse` is the imported module, not
`urlparse.urlparse`, so actually invoking the method would raise a
`TypeError`; `loadURL` never invokes it. -/
def validateProtocolCall (_approved : List String) (_location : String) :
    Except PyErr Bool :=
  .error (.typeError "module object is not callable")

/-- `loadURL(location)`: the guard `if not self._validateProtocol:` tests the
truthiness of the bound method object, which is always true, so the
`ValueError` branch is dead and the fetch (`urllib2.urlopen`) is always
attempted.  `fetch` is the transport oracle standing in for `urlopen` plus
`read`. -/
def loadURL (_approved : List String) (fetch : String → Except PyErr String)
    (location : String) : Except PyErr String :=
  if !validateProtocolAsBool then
    .error (.valueError "protocol for the location is not approved")
  else fetch location

/-- An `Import` element as far as `loadModel` reads it:
`getxlinkHref().getasText()`. -/
structure ImportDef where
  href : String
deriving DecidableEq

/-- A parsed CellML model as far as `loadModel` reads it: the text of
`getxmlBase()` (empty string when absent) and the collection object
returned by `getimports()`, which is fed to `makeGenerator`. -/
structure ModelDef where
  xmlBase : String
  importsObj : TargetObj ImportDef
deriving DecidableEq

/-- Python `model.getxmlBase().getasText() or base`: the empty string is
falsy, so it falls back to the URL the document was fetched from. -/
def effBase (xmlBase base : String) : String :=
  if xmlBase = "" then base else xmlBase

/-- Observable record of one instantiated model node: its declared
`xml:base`, the URL it was fetched from, the effective base URL computed by
`appendQueue` (ghost observation), one slot per import declaration (the id
of the instantiated child model, `none` while empty), and the import
hrefs. -/
structure NodeRec where
  xmlBase : String
  fetchedFrom : String
  baseUrl : String
  slots : List (Option Nat)
  hrefs : List String
deriving DecidableEq

/-- Observable resolver state: the store of model nodes (node 0 is the
root) and the ghost log of every URL handed to `loadURL`, in call order. -/
structure St where
  models : List NodeRec
  fetchLog : List String
deriving DecidableEq

/-- A work item of `importq`: the recorded base URL paired with the
drained import list; each entry carries (owning node id, slot index,
href). -/
structure Frame where
  base : String
  imports : List (Nat × Nat × String)
deriving DecidableEq

/-- Allocate the store record for a freshly parsed model object
(`createFromText` / `instantiateFromText` result); returns its node id. -/
def createNode (m : ModelDef) (fetchedFrom : String) (st : St) : Nat × St :=
  (st.models.length,
   { st with
       models := st.models ++
         [{ xmlBase := m.xmlBase, fetchedFrom := fetchedFrom, baseUrl := "",
            slots := [], hrefs := [] }] })

/-- Write `some cid` into slot `j` of node `nid` (the import object's
instantiated-model slot, set by `instantiateFromText`). -/
def setSlot (st : St) (nid j cid : Nat) : St :=
  match st.models.get? nid with
  | none => st
  | some r =>
    { st with models := st.models.set nid { r with slots := r.slots.set j (some cid) } }

/-- Pair each list element with its position, starting at `n` (the slot
index of each import within its frame). -/
def enumerate (n : Nat) : List α → List (Nat × α)
  | [] => []
  | x :: xs => (n, x) :: enumerate (n + 1) xs

/-- `loadModel.appendQueue(base, model)`: compute
`base_url = model.getxmlBase().getasText() or base`, drain
`list(makeGenerator(model.getimports(), Import))` (a `TypeError` from the
adapter propagates), record the node's effective base and empty slots, and
push a `(base_url, subimport)` frame when the import list is non-empty. -/
def appendQueue (base : String) (nid : Nat) (m : ModelDef) (st : St)
    (q : List Frame) : Except PyErr (St × List Frame) :=
  let base_url := effBase m.xmlBase base
  match makeGenerator m.importsObj (some "Import") "iterate" "next" with
  | .error e => .error e
  | .ok gen =>
    let subimport := drainAll gen
    let st1 :=
      match st.models.get? nid with
      | none => st
      | some r =>
        { st with
            models := st.models.set nid
              { r with baseUrl := base_url,
                       slots := List.replicate subimport.length none,
                       hrefs := subimport.map (fun i => i.href) } }
    if subimport.isEmpty then .ok (st1, q)
    else
      .ok (st1, q ++ [{ base := base_url,
                        imports := (enumerate 0 subimport).map
                          (fun p => (nid, p.1, p.2.href)) }])

/-- The body of `for i in imports:` in `loadModel`'s drain loop.  `base` is
the Python local of the same name: it starts as the popped frame's base
URL, and — faithfully to the source — is OVERWRITTEN with the fetched
document text by `base = self.loadURL(nexturl)` whenever a fetch succeeds,
so later siblings resolve their hrefs against that text.  Only
`urllib2.URLError` and `ValueError` from `loadURL` are caught (the import
is skipped); every other exception, and any exception from
`instantiateFromText` (the `parse` oracle) or from `appendQueue`,
propagates. -/
def processImports (approved : List String) (urljoin : String → String → String)
    (fetch : String → Except PyErr String) (parse : String → Except PyErr ModelDef) :
    List (Nat × Nat × String) → String → St → List Frame →
    Except PyErr (St × List Frame)
  | [], _, st, q => .ok (st, q)
  | (nid, j, href) :: rest, base, st, q =>
    let nexturl := urljoin base href
    let st1 : St := { st with fetchLog := st.fetchLog ++ [nexturl] }
    match loadURL approved fetch nexturl with
    | .error (.urlError _) => processImports approved urljoin fetch parse rest base st1 q
    | .error (.valueError _) => processImports approved urljoin fetch parse rest base st1 q
    | .error e => .error e
    | .ok text =>
      match parse text with
      | .error e => .error e
      | .ok m =>
        let p := createNode m nexturl st1
        let st2 := setSlot p.2 nid j p.1
        match appendQueue nexturl p.1 m st2 q with
        | .error e => .error e
        | .ok r => processImports approved urljoin fetch parse rest text r.1 r.2

/-- `while len(importq):` — pop the head frame and process its imports in
order; `fuel` bounds the number of frame pops (the Python loop can diverge
on cyclic import graphs), `none` meaning the bound was hit. -/
def drainLoop (approved : List String) (urljoin : String → String → String)
    (fetch : String → Except PyErr String) (parse : String → Except PyErr ModelDef) :
    Nat → St → List Frame → Option (Except PyErr St)
  | _, st, [] => some (.ok st)
  | 0, _, _ :: _ => none
  | Nat.succ n, st, f :: rest =>
    match processImports approved urljoin fetch parse f.imports f.base st rest with
    | .error e => some (.error e)
    | .ok r => drainLoop approved urljoin fetch parse n r.1 r.2

/-- `loadModel(model_url)`: fetch the root (errors propagate — there is no
surrounding `try`), parse it with `createFromText`, seed the queue via
`appendQueue(model_url, model)`, then drain.  The returned `St` is the
observable store; Python returns the root model object, node 0 of the
store. -/
def loadModel (fuel : Nat) (approved : List String)
    (urljoin : String → String → String)
    (fetch : String → Except PyErr String) (parse : String → Except PyErr ModelDef)
    (model_url : String) : Option (Except PyErr St) :=
  let st0 : St := { models := [], fetchLog := [model_url] }
  match loadURL approved fetch model_url with
  | .error e => some (.error e)
  | .ok baseText =>
    match parse baseText with
    | .error e => some (.error e)
    | .ok m =>
      let p := createNode m model_url st0
      match appendQueue model_url p.1 m p.2 [] with
      | .error e => some (.error e)
      | .ok r => drainLoop approved urljoin fetch parse fuel r.1 r.2

/-- Members of the real CellML API import collection and iterator: both
enumerator methods are present and callable. -/
def mkImportsColl (items : List ImportDef) : TargetObj ImportDef :=
  { className := "CellMLImportSet",
    members := [("iterateImports", true)],
    produced := { className := "CellMLImportIterator",
                  members := [("nextImport", true)],
                  items := items } }

/-- A well-behaved parsed model with the given declared `xml:base` (empty
string for absent) and import hrefs. -/
def mkModel (xmlBase : String) (hrefs : List String) : ModelDef :=
  { xmlBase := xmlBase, importsObj := mkImportsColl (hrefs.map ImportDef.mk) }

/-- Python truthiness of the `language` argument of `exportCeleds`
(`None` and the empty list are falsy). -/
def pyTruthy : Option (List String) → Bool
  | none => false
  | some l => !l.isEmpty

/-- `exportCeleds(model, language)`: iterate the configured exporters; the
filter line `if language and k not in language:` reads the undefined name
`k`, so the first loop iteration with a truthy `language` raises
`NameError`; with a falsy `language` the comparison is short-circuited away
and every exporter runs. -/
def exportCeleds (exporters : List (String × (String → String))) (model : String)
    (language : Option (List String)) : Except PyErr (List (String × String)) :=
  match exporters with
  | [] => .ok []
  | (key, exporter) :: rest =>
    if pyTruthy language then .error (.nameError "global name k is not defined")
    else
      match exportCeleds rest model language with
      | .error e => .error e
      | .ok r => .ok ((key, exporter model) :: r)

/-- A concrete stand-in for `urlparse.urljoin` that records both arguments
injectively, so the proofs can read off exactly which base string a href
was resolved against. -/
def joinRec : String → String → String := fun b r => b ++ "|" ++ r

/-- Transport oracle for the C1 scenario: the root and the first import
resolve and fetch fine; everything else is unreachable. -/
def c1Fetch : String → Except PyErr String := fun u =>
  if u = "http://h/r" then .ok "ROOT"
  else if u = "http://h/r|a" then .ok "TA"
  else .error (.urlError "unreachable")

/-- Parser oracle for the C1 scenario: the root declares imports `a` and
`b` and no `xml:base`; the first import's document is a leaf. -/
def c1Parse : String → Except PyErr ModelDef := fun t =>
  if t = "ROOT" then .ok (mkModel "" ["a", "b"])
  else if t = "TA" then .ok (mkModel "" [])
  else .error (.valueError "not cellml")

/-- Transport oracle for the C2 scenario: root fetched from
`http://h/r2`, first import resolved against the root's declared base
`http://decl/`. -/
def c2Fetch : String → Except PyErr String := fun u =>
  if u = "http://h/r2" then .ok "ROOT2"
  else if u = "http://decl/|a" then .ok "TA2"
  else .error (.urlError "unreachable")

/-- Parser oracle for the C2 scenario: the root overrides its base with
`xml:base = http://decl/`; the first import's document inherits (no
declared base). -/
def c2Parse : String → Except PyErr ModelDef := fun t =>
  if t = "ROOT2" then .ok (mkModel "http://decl/" ["a", "b"])
  else if t = "TA2" then .ok (mkModel "" [])
  else .error (.valueError "not cellml")

/-- Transport oracle for the C3 witness: first sibling import unreachable,
second fetches a child that itself imports one leaf. -/
def c3Fetch : String → Except PyErr String := fun u =>
  if u = "http://w/r" then .ok "WROOT"
  else if u = "http://w/r|ok" then .ok "WCHILD"
  else if u = "http://w/r|ok|leaf" then .ok "WLEAF"
  else .error (.urlError "down")

/-- Parser oracle for the C3 witness. -/
def c3Parse : String → Except PyErr ModelDef := fun t =>
  if t = "WROOT" then .ok (mkModel "" ["bad", "ok"])
  else if t = "WCHILD" then .ok (mkModel "" ["leaf"])
  else if t = "WLEAF" then .ok (mkModel "" [])
  else .error (.valueError "not cellml")

/-- Transport oracle for the C8 witness: every fetch fails. -/
def c8Fetch : String → Except PyErr String := fun _ =>
  .error (.urlError "connection refused")

/-- Parser oracle for the C8 witness (never consulted). -/
def c8Parse : String → Except PyErr ModelDef := fun _ =>
  .error (.valueError "not cellml")

/-- Transport oracle for the C10 witness: root and its single import both
fetch fine. -/
def c10Fetch : String → Except PyErr String := fun u =>
  if u = "http://t/r" then .ok "XROOT"
  else if u = "http://t/r|one" then .ok "XCHILD"
  else .error (.urlError "unreachable")

/-- Parser oracle for the first C10 scenario: instantiating the text
fetched for the import fails with a `TypeError` from the CellML API. -/
def c10ParseA : String → Except PyErr ModelDef := fun t =>
  if t = "XROOT" then .ok (mkModel "" ["one"])
  else .error (.typeError "not a model")

/-- Parser oracle for the second C10 scenario: the import's text parses,
but the resulting object's import collection exposes no enumerator
members, so the adapter raises. -/
def c10ParseB : String → Except PyErr ModelDef := fun t =>
  if t = "XROOT" then .ok (mkModel "" ["one"])
  else
    .ok { xmlBase := "",
          importsObj :=
            { className := "Opaque", members := [],
              produced := { className := "OpaqueIter", members := [], items := [] } } }

/-- C6 witness target: no `iterateImports` member at all. -/
def c6Obj1 : TargetObj Nat :=
  { className := "PlainObject", members := [],
    produced := { className := "PlainIter", members := [], items := [] } }

/-- C6 witness target: `iterateImports` is callable, but the produced
iterator has no `nextImport` member. -/
def c6Obj2 : TargetObj Nat :=
  { className := "HalfIterable", members := [("iterateImports", true)],
    produced := { className := "NoAdvanceIter", members := [], items := [] } }

/-- C6 witness target: `iterateImports` exists but is not callable. -/
def c6Obj3 : TargetObj Nat :=
  { className := "BadMember", members := [("iterateImports", false)],
    produced := { className := "Unused", members := [], items := [] } }

/-- C7 witness target: a well-behaved two-element collection. -/
def c7Obj : TargetObj Nat :=
  { className := "Coll", members := [("iterateImports", true)],
    produced := { className := "CollIter", members := [("nextImport", true)],
                  items := [10, 20] } }




/-! Helper lemmas. -/

/-- A closed generator never yields again and never changes state. -/
theorem drain_closed (g : Gen α) (h : g.closed = true) (fuel : Nat) :
    drain g fuel = ([], g) := by
  cases fuel with
  | zero => rfl
  | succ n => simp [drain, genNext, h]

/-- Behaviour of a fresh generator over `remaining` elements: it yields its
elements in order, and closes exactly when the advance function first
returns the sentinel (one call past the last element). -/
theorem drain_fresh (l : List α) (fuel : Nat) :
    drain { remaining := l, closed := false } fuel =
      if fuel ≤ l.length then (l.take fuel, { remaining := l.drop fuel, closed := false })
      else (l, { remaining := [], closed := true }) := by
  induction l generalizing fuel with
  | nil => cases fuel <;> simp [drain, genNext]
  | cons x xs ih =>
    cases fuel with
    | zero => simp [drain]
    | succ n =>
      simp [drain, genNext, ih n, Nat.succ_le_succ_iff]
      split <;> simp

/-- A successful `makeGenerator` call always hands back the fresh
generator over the produced iterator's elements. -/
theorem makeGenerator_ok (obj : TargetObj α) (key : Option String)
    (iterator next : String) (g : Gen α)
    (h : makeGenerator obj key iterator next = .ok g) :
    g = { remaining := obj.produced.items, closed := false } := by
  simp only [makeGenerator] at h
  split at h
  · exact absurd h (by simp)
  · split at h
    · exact absurd h (by simp)
    · exact (Except.ok.inj h).symm

/-- With a falsy `language` argument every configured exporter runs. -/
theorem exportCeleds_none (exporters : List (String × (String → String)))
    (model : String) :
    exportCeleds exporters model none =
      .ok (exporters.map fun p => (p.1, p.2 model)) := by
  induction exporters with
  | nil => rfl
  | cons p rest ih => simp [exportCeleds, pyTruthy, ih]

/-! Claim theorems. -/

/-- C1: the claim states that during the drain loop every import of a
popped frame, including the second and later ones, has its href resolved
against that frame's base URL.  Running `loadModel` on a root with two
sibling hrefs whose first fetch succeeds shows the opposite: the Python local
`base` is overwritten with the fetched document text by
`base = self.loadURL(nexturl)`, so the second href `b` is joined against
the text `TA` of the first import's document instead of the frame base
`http://h/r` — the third logged fetch is `joinRec TA b`, not
`joinRec http://h/r b`. -/
theorem c1_second_href_joined_against_document_text :
    loadModel 1 ["http", "https"] joinRec c1Fetch c1Parse "http://h/r" =
      some (.ok
        { models := [
            { xmlBase := "", fetchedFrom := "http://h/r", baseUrl := "http://h/r",
              slots := [some 1, none], hrefs := ["a", "b"] },
            { xmlBase := "", fetchedFrom := "http://h/r|a", baseUrl := "http://h/r|a",
              slots := [], hrefs := [] }],
          fetchLog := ["http://h/r", "http://h/r|a", "TA|b"] })
    ∧ "TA|b" = joinRec "TA" "b"
    ∧ "TA|b" ≠ joinRec "http://h/r" "b" :=
  ⟨rfl, rfl, by decide⟩

/-- C2: the recorded effective base is indeed the declared `xml:base` when
non-empty (root records `http://decl/`, overriding its fetch URL) and the
fetch URL otherwise (the child records `http://decl/|a`), but it is NOT
used unchanged for all of the node's imports: the root's second import is
resolved against the document text `TA2` fetched for the first import
(third log entry `TA2|b`), not against the recorded base `http://decl/`. -/
theorem c2_recorded_base_correct_but_not_used_unchanged :
    loadModel 1 ["http", "https"] joinRec c2Fetch c2Parse "http://h/r2" =
      some (.ok
        { models := [
            { xmlBase := "http://decl/", fetchedFrom := "http://h/r2",
              baseUrl := "http://decl/", slots := [some 1, none],
              hrefs := ["a", "b"] },
            { xmlBase := "", fetchedFrom := "http://decl/|a",
              baseUrl := "http://decl/|a", slots := [], hrefs := [] }],
          fetchLog := ["http://h/r2", "http://decl/|a", "TA2|b"] })
    ∧ "TA2|b" ≠ joinRec "http://decl/" "b" :=
  ⟨rfl, by decide⟩

/-- C3: when fetching a nested import fails with a `URLError` or a
`ValueError`, only that import is skipped: with siblings `h1` (fails) and
`h2` (succeeds), resolution still completes with `some (.ok _)` (no
exception escapes), the first slot stays `none`, the second is populated
with node 1, and the frame queued for the successful child is processed
afterwards (its own import is fetched and instantiated as node 2). -/
theorem c3_nested_fetch_failure_skips_one_import
    (approved : List String) (urljoin : String → String → String)
    (fetch : String → Except PyErr String) (parse : String → Except PyErr ModelDef)
    (rootUrl rootText h1 h2 h3 t2 t3 rb lb gb msg : String) (e : PyErr)
    (he : e = .urlError msg ∨ e = .valueError msg)
    (hfr : fetch rootUrl = .ok rootText)
    (hpr : parse rootText = .ok (mkModel rb [h1, h2]))
    (hf1 : fetch (urljoin (effBase rb rootUrl) h1) = .error e)
    (hf2 : fetch (urljoin (effBase rb rootUrl) h2) = .ok t2)
    (hp2 : parse t2 = .ok (mkModel lb [h3]))
    (hf3 : fetch (urljoin (effBase lb (urljoin (effBase rb rootUrl) h2)) h3) = .ok t3)
    (hp3 : parse t3 = .ok (mkModel gb [])) :
    loadModel 2 approved urljoin fetch parse rootUrl =
      some (.ok
        { models := [
            { xmlBase := rb, fetchedFrom := rootUrl, baseUrl := effBase rb rootUrl,
              slots := [none, some 1], hrefs := [h1, h2] },
            { xmlBase := lb, fetchedFrom := urljoin (effBase rb rootUrl) h2,
              baseUrl := effBase lb (urljoin (effBase rb rootUrl) h2),
              slots := [some 2], hrefs := [h3] },
            { xmlBase := gb,
              fetchedFrom := urljoin (effBase lb (urljoin (effBase rb rootUrl) h2)) h3,
              baseUrl := effBase gb
                (urljoin (effBase lb (urljoin (effBase rb rootUrl) h2)) h3),
              slots := [], hrefs := [] }],
          fetchLog := [rootUrl,
            urljoin (effBase rb rootUrl) h1,
            urljoin (effBase rb rootUrl) h2,
            urljoin (effBase lb (urljoin (effBase rb rootUrl) h2)) h3] }) := by
  rcases he with rfl | rfl <;>
    simp [loadModel, loadURL, validateProtocolAsBool, hfr, hpr, createNode,
      appendQueue, mkModel, mkImportsColl, makeGenerator, resolveNames,
      getcallableCheck, lookupMember, drainAll, enumerate, drainLoop,
      processImports, setSlot, hf1, hf2, hp2, hf3, hp3, List.replicate,
      List.set, List.get?, List.isEmpty]

/-- C3 witness: the concrete three-document scenario behind
`c3_nested_fetch_failure_skips_one_import`, with the first sibling
unreachable and the second resolving to a child that imports one leaf. -/
theorem c3_witness :
    loadModel 2 ["http", "https"] joinRec c3Fetch c3Parse "http://w/r" =
      some (.ok
        { models := [
            { xmlBase := "", fetchedFrom := "http://w/r", baseUrl := "http://w/r",
              slots := [none, some 1], hrefs := ["bad", "ok"] },
            { xmlBase := "", fetchedFrom := "http://w/r|ok",
              baseUrl := "http://w/r|ok", slots := [some 2], hrefs := ["leaf"] },
            { xmlBase := "", fetchedFrom := "http://w/r|ok|leaf",
              baseUrl := "http://w/r|ok|leaf", slots := [], hrefs := [] }],
          fetchLog := ["http://w/r", "http://w/r|bad", "http://w/r|ok",
            "http://w/r|ok|leaf"] }) :=
  c3_nested_fetch_failure_skips_one_import ["http", "https"] joinRec c3Fetch c3Parse
    "http://w/r" "WROOT" "bad" "ok" "leaf" "WCHILD" "WLEAF" "" "" "" "down"
    (.urlError "down") (Or.inl rfl) rfl rfl rfl rfl rfl rfl rfl

/-- C4: the claim states that a URL whose scheme is outside the allow-set
fails with the disallowed-protocol error before any network access.  In
the code the guard `if not self._validateProtocol:` tests the truthiness
of the bound method object without calling it, so for every allow-set,
every transport and every location — disallowed schemes included — the
Fetch Gate is a no-op around the fetch: `loadURL` always performs the
network access and never raises the protocol `ValueError`. -/
theorem c4_fetch_gate_never_raises (approved : List String)
    (fetch : String → Except PyErr String) (location : String) :
    loadURL approved fetch location = fetch location := rfl

/-- C5 counterexample: the claim states that explicitly given
iterator/next method names take precedence over the key-derived names.
At the concrete input key = `Import`, iterator = `customProduce`,
next = `customAdvance`, the resolved names are the key-derived
(`iterateImports`, `nextImport`), not the explicit ones. -/
theorem c5_counterexample_explicit_names_ignored :
    ¬ (resolveNames (some "Import") "customProduce" "customAdvance" =
        ("customProduce", "customAdvance")) := by
  decide

/-- C5 amended: when a key is supplied the produce-iterator and advance
names are derived deterministically from it (key `Import` yields
`iterateImports` and `nextImport`), and the key-derived names take
precedence over explicitly given iterator/next names; the explicit names
are used only when no key is supplied. -/
theorem c5_key_derived_names_take_precedence (k iterator next : String) :
    resolveNames (some "Import") iterator next = ("iterateImports", "nextImport")
    ∧ resolveNames (some k) iterator next = ("iterate" ++ k ++ "s", "next" ++ k)
    ∧ resolveNames none iterator next = (iterator, next) :=
  ⟨rfl, rfl, rfl⟩

/-- C6: a target without a callable member under the resolved
produce-iterator name makes `makeGenerator` raise a `TypeError` whose
message names that member and the target's class (both for a missing and
for a non-callable member), and a produced iterator lacking the advance
member raises a `TypeError` naming the advance member; in every case the
adapter call returns the error to its caller instead of a sequence. -/
theorem c6_capability_error_names_member (o1 o2 o3 : TargetObj Nat)
    (it1 nx1 it2 nx2 it3 nx3 : String)
    (h1 : lookupMember o1.members "iterateImports" = none)
    (h2 : lookupMember o2.members "iterateImports" = some true)
    (h3 : lookupMember o2.produced.members "nextImport" = none)
    (h4 : lookupMember o3.members "iterateImports" = some false) :
    makeGenerator o1 (some "Import") it1 nx1 =
      .error (.typeError (o1.className ++ " object is not iterable with " ++ "iterateImports"))
    ∧ makeGenerator o2 (some "Import") it2 nx2 =
      .error (.typeError (o2.produced.className ++ " object is not iterable with " ++ "nextImport"))
    ∧ makeGenerator o3 (some "Import") it3 nx3 =
      .error (.typeError (o3.className ++ "." ++ "iterateImports" ++ " is not callable")) := by
  have e1 : ("iterate" ++ "Import" ++ "s" : String) = "iterateImports" := rfl
  have e2 : ("next" ++ "Import" : String) = "nextImport" := rfl
  refine ⟨?_, ?_, ?_⟩ <;>
    simp [makeGenerator, resolveNames, getcallableCheck, e1, e2, h1, h2, h3, h4]

/-- C6 witness: `c6Obj1` has no `iterateImports` at all, `c6Obj2` produces
an iterator without `nextImport`, `c6Obj3` has a non-callable
`iterateImports`; each yields the corresponding `TypeError`. -/
theorem c6_witness :
    makeGenerator c6Obj1 (some "Import") "iterate" "next" =
      .error (.typeError "PlainObject object is not iterable with iterateImports")
    ∧ makeGenerator c6Obj2 (some "Import") "iterate" "next" =
      .error (.typeError "NoAdvanceIter object is not iterable with nextImport")
    ∧ makeGenerator c6Obj3 (some "Import") "iterate" "next" =
      .error (.typeError "BadMember.iterateImports is not callable") :=
  c6_capability_error_names_member c6Obj1 c6Obj2 c6Obj3
    "iterate" "next" "iterate" "next" "iterate" "next" rfl rfl rfl rfl

/-- C7: a generator handed out by `makeGenerator` yields exactly the
produced iterator's elements, terminating at the first sentinel (with
fewer `next` calls it has not yet terminated and has yielded a strict
prefix); once exhausted it is closed and every further draining attempt
yields nothing and leaves it closed; and any successful `makeGenerator`
call hands back a fresh, unconsumed sequence over the full element list,
independent of any previously drained generator. -/
theorem c7_generator_single_pass (obj : TargetObj Nat) (key : Option String)
    (iterator next : String) (g : Gen Nat)
    (h : makeGenerator obj key iterator next = .ok g) :
    (∀ extra, (drain g (obj.produced.items.length + 1 + extra)).1 = obj.produced.items)
    ∧ (drain g (obj.produced.items.length + 1)).2.closed = true
    ∧ (∀ fuel, drain (drain g (obj.produced.items.length + 1)).2 fuel =
        ([], (drain g (obj.produced.items.length + 1)).2))
    ∧ (∀ fuel, fuel ≤ obj.produced.items.length →
        (drain g fuel).1 = obj.produced.items.take fuel)
    ∧ g = { remaining := obj.produced.items, closed := false } := by
  have hg := makeGenerator_ok obj key iterator next g h
  subst hg
  refine ⟨?_, ?_, ?_, ?_, rfl⟩
  · intro extra; rw [drain_fresh, if_neg (by omega)]
  · rw [drain_fresh, if_neg (by omega)]
  · intro fuel
    rw [drain_fresh, if_neg (by omega)]
    exact drain_closed _ rfl fuel
  · intro fuel hf; rw [drain_fresh, if_pos hf]

/-- C7 witness: the two-element collection `c7Obj` drained through the
adapter. -/
theorem c7_witness :
    (∀ extra, (drain ({ remaining := [10, 20], closed := false } : Gen Nat)
        (c7Obj.produced.items.length + 1 + extra)).1 = c7Obj.produced.items)
    ∧ (drain ({ remaining := [10, 20], closed := false } : Gen Nat)
        (c7Obj.produced.items.length + 1)).2.closed = true
    ∧ (∀ fuel, drain (drain ({ remaining := [10, 20], closed := false } : Gen Nat)
        (c7Obj.produced.items.length + 1)).2 fuel =
        ([], (drain ({ remaining := [10, 20], closed := false } : Gen Nat)
          (c7Obj.produced.items.length + 1)).2))
    ∧ (∀ fuel, fuel ≤ c7Obj.produced.items.length →
        (drain ({ remaining := [10, 20], closed := false } : Gen Nat) fuel).1 =
          c7Obj.produced.items.take fuel)
    ∧ ({ remaining := [10, 20], closed := false } : Gen Nat) =
        { remaining := c7Obj.produced.items, closed := false } :=
  c7_generator_single_pass c7Obj (some "Import") "iterate" "next"
    { remaining := [10, 20], closed := false } rfl

/-- C8: when fetching the root document fails — with any exception,
covering both the transport `URLError` and a `ValueError` — the error
propagates uncaught out of `loadModel` (the root fetch sits outside every
`try`), and no model store is produced. -/
theorem c8_root_fetch_error_propagates (fuel : Nat) (approved : List String)
    (urljoin : String → String → String) (fetch : String → Except PyErr String)
    (parse : String → Except PyErr ModelDef) (model_url : String) (e : PyErr)
    (h : fetch model_url = .error e) :
    loadModel fuel approved urljoin fetch parse model_url = some (.error e) := by
  simp [loadModel, loadURL, validateProtocolAsBool, h]

/-- C8 witness: a transport that refuses every connection makes the
top-level call fail with that very error. -/
theorem c8_witness :
    c8Fetch "http://x/y" = .error (.urlError "connection refused")
    ∧ loadModel 0 ["http", "https"] joinRec c8Fetch c8Parse "http://x/y" =
        some (.error (.urlError "connection refused")) :=
  ⟨rfl, c8_root_fetch_error_propagates 0 ["http", "https"] joinRec c8Fetch c8Parse
    "http://x/y" (.urlError "connection refused") rfl⟩

/-- C9: the claim states that with a non-empty language list the export
operation skips exporters whose key is not requested.  The code instead
reads the undefined name `k` in `if language and k not in language:`, so
as soon as there is at least one configured exporter and the language
list is non-empty, the very first loop iteration raises `NameError` —
nothing is skipped and no result is produced.  With no language list
supplied the comparison is short-circuited away and every configured
exporter runs. -/
theorem c9_language_filter_raises_name_error (key : String)
    (exporter : String → String) (rest : List (String × (String → String)))
    (model lang : String) (langs : List String) :
    exportCeleds ((key, exporter) :: rest) model (some (lang :: langs)) =
      .error (.nameError "global name k is not defined")
    ∧ exportCeleds ((key, exporter) :: rest) model none =
      .ok (((key, exporter) :: rest).map fun p => (p.1, p.2 model)) :=
  ⟨by simp [exportCeleds, pyTruthy], exportCeleds_none _ _⟩

/-- C10: the per-import catch covers only `urllib2.URLError` and
`ValueError` raised by the fetch; an exception of another family raised
while processing a nested import escapes `loadModel` even though the root
document loaded successfully.  Scenario A: `instantiateFromText` on the
fetched import text fails with a `TypeError`/`NameError`, which
propagates as-is.  Scenario B: the freshly instantiated child parses, but
enumerating its imports hits an object without `iterateImports`, and the
adapter's capability `TypeError` propagates. -/
theorem c10_other_exceptions_propagate
    (approved : List String) (urljoin : String → String → String)
    (fetch : String → Except PyErr String)
    (parseA parseB : String → Except PyErr ModelDef)
    (rootUrl rootText h1 t1 rb lb cn msg : String) (e : PyErr)
    (io : IterObj ImportDef)
    (he : e = .typeError msg ∨ e = .nameError msg)
    (hfr : fetch rootUrl = .ok rootText)
    (hprA : parseA rootText = .ok (mkModel rb [h1]))
    (hf1 : fetch (urljoin (effBase rb rootUrl) h1) = .ok t1)
    (hp1A : parseA t1 = .error e)
    (hprB : parseB rootText = .ok (mkModel rb [h1]))
    (hp1B : parseB t1 =
      .ok { xmlBase := lb,
            importsObj := { className := cn, members := [], produced := io } }) :
    loadModel 1 approved urljoin fetch parseA rootUrl = some (.error e)
    ∧ loadModel 1 approved urljoin fetch parseB rootUrl =
        some (.error (.typeError (cn ++ " object is not iterable with " ++ "iterateImports"))) := by
  have e1 : ("iterate" ++ "Import" ++ "s" : String) = "iterateImports" := rfl
  rcases he with rfl | rfl <;>
    refine ⟨?_, ?_⟩ <;>
      simp [loadModel, loadURL, validateProtocolAsBool, hfr, hprA, hprB,
        createNode, appendQueue, mkModel, mkImportsColl, makeGenerator,
        resolveNames, getcallableCheck, lookupMember, drainAll, enumerate,
        drainLoop, processImports, setSlot, hf1, hp1A, hp1B, e1,
        List.replicate, List.set, List.get?, List.isEmpty]

/-- C10 witness: the two concrete scenarios — a child text the parser
rejects with `TypeError`, and a child whose import collection exposes no
enumerator members. -/
theorem c10_witness :
    loadModel 1 ["http", "https"] joinRec c10Fetch c10ParseA "http://t/r" =
      some (.error (.typeError "not a model"))
    ∧ loadModel 1 ["http", "https"] joinRec c10Fetch c10ParseB "http://t/r" =
      some (.error (.typeError "Opaque object is not iterable with iterateImports")) :=
  c10_other_exceptions_propagate ["http", "https"] joinRec c10Fetch c10ParseA
    c10ParseB "http://t/r" "XROOT" "one" "XCHILD" "" "" "Opaque" "not a model"
    (.typeError "not a model") { className := "OpaqueIter", members := [], items := [] }
    (Or.inl rfl) rfl rfl rfl rfl rfl rfl
